import Mathlib

/-
Verification of the image-modal controller and language switcher of the
paintings-artist-gallery portfolio site.

The controller code exists in two essentially identical copies
(components/BaseLayout/LanguageSwitcher.client.ts, second document, and
components/ImageModal/ImageModal.client.ts, second document); the embedding
below follows that source.  JavaScript numbers are modelled by rationals
where the relevant code paths never produce NaN or infinities, and by an
explicit JNum type (rational / NaN / infinities) where the code defends
against non-finite values.  DOM reads (element presence, viewport sizes,
natural image sizes, pointer coordinates) are passed in as explicit
environment values.
-/

namespace Gallery

/-! ### Configuration constants (ZOOM_CONFIG, PAN_CONFIG, SWIPE_CONFIG) -/

def ZOOM_MIN : ℚ := 1

def ZOOM_MAX : ℚ := 5 / 2

def ZOOM_DEFAULT : ℚ := 1

def SCROLL_SPEED : ℚ := 3 / 2

def SWIPE_MIN_DISTANCE : ℚ := 50

def SWIPE_MAX_DURATION : ℚ := 500

/-! ### Carousel index update

`ImageModalController.updateImageIndex`: the current index is advanced by
`direction`, then an index at or above the sequence length collapses to `0`
and a negative index collapses to `length - 1`. -/

def updateImageIndex (len idx direction : ℤ) : ℤ :=
  if len ≤ idx + direction then 0
  else if idx + direction < 0 then len - 1
  else idx + direction

/-- Iterating the index update `k` times with a fixed direction. -/
def navigateIter (len direction : ℤ) : ℕ → ℤ → ℤ
  | 0, idx => idx
  | k + 1, idx => navigateIter len direction k (updateImageIndex len idx direction)

lemma updateImageIndex_range (len idx direction : ℤ) (hlen : 1 ≤ len) :
    0 ≤ updateImageIndex len idx direction ∧ updateImageIndex len idx direction < len := by
  unfold updateImageIndex
  split_ifs <;> omega

lemma updateImageIndex_eq_emod (len idx d : ℤ) (hlen : 1 ≤ len) (h0 : 0 ≤ idx)
    (h1 : idx < len) (hd : d = -1 ∨ d = 1) :
    updateImageIndex len idx d = (idx + d) % len := by
  unfold updateImageIndex
  rcases hd with rfl | rfl
  · split_ifs with hge hneg
    · omega
    · have hidx : idx = 0 := by omega
      subst hidx
      have h2 : ((-1 : ℤ) + len * 1) % len = (-1 : ℤ) % len :=
        Int.add_mul_emod_self_left (-1) len 1
      have h3 : ((-1 : ℤ) + len * 1) = len - 1 := by ring
      have h4 : (len - 1) % len = len - 1 :=
        Int.emod_eq_of_lt (by omega) (by omega)
      rw [h3] at h2
      rw [show (0 : ℤ) + -1 = -1 by ring, ← h2, h4]
    · exact (Int.emod_eq_of_lt (by omega) (by omega)).symm
  · split_ifs with hge hneg
    · have h2 : idx + 1 = len := by omega
      rw [h2, Int.emod_self]
    · omega
    · exact (Int.emod_eq_of_lt (by omega) (by omega)).symm

lemma navigateIter_emod (len d : ℤ) (hd : d = -1 ∨ d = 1) (hlen : 1 ≤ len) :
    ∀ (k : ℕ) (idx : ℤ), 0 ≤ idx → idx < len →
      navigateIter len d k idx = (idx + (k : ℤ) * d) % len := by
  intro k
  induction k with
  | zero =>
    intro idx h0 h1
    simp only [navigateIter, Nat.cast_zero, zero_mul, add_zero]
    exact (Int.emod_eq_of_lt h0 h1).symm
  | succ n ih =>
    intro idx h0 h1
    have hstep : navigateIter len d (n + 1) idx
        = navigateIter len d n (updateImageIndex len idx d) := rfl
    rw [hstep, updateImageIndex_eq_emod len idx d hlen h0 h1 hd]
    have hm0 : 0 ≤ (idx + d) % len := Int.emod_nonneg _ (by omega)
    have hm1 : (idx + d) % len < len := Int.emod_lt_of_pos _ (by omega)
    rw [ih _ hm0 hm1, Int.emod_add_emod]
    congr 1
    push_cast
    ring

/-- C1: For every carousel of length N ≥ 1 and every starting index i in
[0, N), applying the navigation index update k times with a fixed direction
in \x7b-1, +1\x7d yields index (i + k·direction) mod N, which always lies in
[0, N); an index that would fall below 0 becomes N−1 and one that would
reach N becomes 0. -/
theorem carousel_navigate_mod (len idx d : ℤ) (k : ℕ) (hlen : 1 ≤ len)
    (h0 : 0 ≤ idx) (h1 : idx < len) (hd : d = -1 ∨ d = 1) :
    navigateIter len d k idx = (idx + (k : ℤ) * d) % len ∧
    0 ≤ navigateIter len d k idx ∧ navigateIter len d k idx < len ∧
    (idx + d < 0 → updateImageIndex len idx d = len - 1) ∧
    (len ≤ idx + d → updateImageIndex len idx d = 0) := by
  have hmod := navigateIter_emod len d hd hlen k idx h0 h1
  refine ⟨hmod, ?_, ?_, ?_, ?_⟩
  · rw [hmod]; exact Int.emod_nonneg _ (by omega)
  · rw [hmod]; exact Int.emod_lt_of_pos _ (by omega)
  · intro hneg; unfold updateImageIndex; split_ifs <;> omega
  · intro hge; unfold updateImageIndex; split_ifs <;> omega

theorem carousel_navigate_mod_witness :
    (1 : ℤ) ≤ 3 ∧ (0 : ℤ) ≤ 1 ∧ (1 : ℤ) < 3 ∧
    (navigateIter 3 1 2 1 = (1 + ((2 : ℕ) : ℤ) * 1) % 3 ∧
      0 ≤ navigateIter 3 1 2 1 ∧ navigateIter 3 1 2 1 < 3 ∧
      ((1 : ℤ) + 1 < 0 → updateImageIndex 3 1 1 = 3 - 1) ∧
      ((3 : ℤ) ≤ 1 + 1 → updateImageIndex 3 1 1 = 0)) :=
  ⟨by norm_num, by norm_num, by norm_num,
    carousel_navigate_mod 3 1 1 2 (by norm_num) (by norm_num) (by norm_num) (Or.inr rfl)⟩

/-- C10: the index update is range-safe for arbitrary integer directions:
for every carousel length N ≥ 1, starting index in [0, N) and any integer
direction, a single update lands in [0, N); an overshoot at or above N
collapses to 0 and an undershoot below 0 collapses to N−1, which differs
from (i + direction) mod N when the direction overshoots by more than one
(e.g. length 5, index 4, direction 2 yields 0 while (4 + 2) mod 5 = 1). -/
theorem update_index_range_safe (len idx d : ℤ) (hlen : 1 ≤ len)
    (h0 : 0 ≤ idx) (h1 : idx < len) :
    0 ≤ updateImageIndex len idx d ∧ updateImageIndex len idx d < len ∧
    (len ≤ idx + d → updateImageIndex len idx d = 0) ∧
    (idx + d < 0 → updateImageIndex len idx d = len - 1) ∧
    updateImageIndex 5 4 2 = 0 ∧ ((4 : ℤ) + 2) % 5 = 1 := by
  refine ⟨(updateImageIndex_range len idx d hlen).1,
    (updateImageIndex_range len idx d hlen).2, ?_, ?_, by decide, by decide⟩
  · intro hge; unfold updateImageIndex; split_ifs <;> omega
  · intro hneg; unfold updateImageIndex; split_ifs <;> omega

theorem update_index_range_safe_witness :
    (1 : ℤ) ≤ 3 ∧ (0 : ℤ) ≤ 0 ∧ (0 : ℤ) < 3 ∧
    (0 ≤ updateImageIndex 3 0 5 ∧ updateImageIndex 3 0 5 < 3 ∧
      ((3 : ℤ) ≤ 0 + 5 → updateImageIndex 3 0 5 = 0) ∧
      ((0 : ℤ) + 5 < 0 → updateImageIndex 3 0 5 = 3 - 1) ∧
      updateImageIndex 5 4 2 = 0 ∧ ((4 : ℤ) + 2) % 5 = 1) :=
  ⟨by norm_num, by norm_num, by norm_num,
    update_index_range_safe 3 0 5 (by norm_num) (by norm_num) (by norm_num)⟩

/-! ### Strings and carousel data

Paths and URLs are modelled as lists of characters so that the JavaScript
string operations (first-occurrence replace, startsWith, concatenation) can
be embedded exactly. -/

abbrev Str := List Char

def str (s : String) : Str := s.toList

structure CarouselImage where
  src : Str
  srcOriginal : Str
  alt : Str

structure AdditionalPhoto where
  src : Str
  srcOriginal : Option Str
  alt : Str

structure ImageData where
  src : Str
  srcOriginal : Option Str
  alt : Str
  additionalPhotos : List AdditionalPhoto

/-- `buildImageUrl`: template concatenation of the base URL and a path. -/
def buildImageUrl (baseUrl path : Str) : Str := baseUrl ++ path

/-- `collectAllImages`: the main image followed by the additional photos;
missing full-resolution URLs fall back to the display URL. -/
def collectAllImages (baseUrl : Str) (data : ImageData) : List CarouselImage :=
  { src := buildImageUrl baseUrl data.src
    srcOriginal := buildImageUrl baseUrl (data.srcOriginal.getD data.src)
    alt := data.alt } ::
  data.additionalPhotos.map (fun photo =>
    { src := buildImageUrl baseUrl photo.src
      srcOriginal := buildImageUrl baseUrl (photo.srcOriginal.getD photo.src)
      alt := photo.alt })

/-- The predicate used by `findImageIndex`: a carousel entry matches when
either its display URL or its full-resolution URL equals the clicked one. -/
def imageMatches (clickedSrc : Str) (image : CarouselImage) : Bool :=
  image.src == clickedSrc || image.srcOriginal == clickedSrc

/-- `findImageIndex`: JavaScript `Array.findIndex`, returning −1 when no
entry matches. -/
def findImageIndex (images : List CarouselImage) (clickedSrc : Str) : ℤ :=
  match images.findIdx? (imageMatches clickedSrc) with
  | some i => (i : ℤ)
  | none => -1

/-! ### Pan bounds -/

/-- DOM readings consumed by `calculatePanBounds`: whether the modal image
element exists, its natural size, its rendered bounding box, and the
viewport size (`window.innerWidth` / `window.innerHeight`). -/
structure BoundsEnv where
  hasImageElement : Bool
  naturalWidth : ℚ
  naturalHeight : ℚ
  rectWidth : ℚ
  rectHeight : ℚ
  viewportWidth : ℚ
  viewportHeight : ℚ

/-- `calculateBoundsFromSize`: the zoomed size is the base size times the
zoom factor; each axis may pan by half of the excess of the zoomed size
over the viewport, and not at all when there is no excess. -/
def calculateBoundsFromSize (zoomScale baseWidth baseHeight viewportWidth viewportHeight : ℚ) :
    ℚ × ℚ :=
  if max 0 (baseWidth * zoomScale - viewportWidth) = 0 ∧
      max 0 (baseHeight * zoomScale - viewportHeight) = 0 then
    (0, 0)
  else
    (if 0 < max 0 (baseWidth * zoomScale - viewportWidth) then
        max 0 (baseWidth * zoomScale - viewportWidth) / 2
      else 0,
     if 0 < max 0 (baseHeight * zoomScale - viewportHeight) then
        max 0 (baseHeight * zoomScale - viewportHeight) / 2
      else 0)

/-- The viewport-relative max-height policy: full height on mobile widths,
80% at tablet widths (≥ 768), 90% at desktop widths (≥ 1024). -/
def maxDisplayHeight (viewportWidth viewportHeight : ℚ) : ℚ :=
  if 1024 ≤ viewportWidth then viewportHeight * (9 / 10)
  else if 768 ≤ viewportWidth then viewportHeight * (8 / 10)
  else viewportHeight

/-- `calculatePanBounds`: `none` when the image element is missing or the
view is not zoomed in; when natural dimensions are unavailable, fall back
to the rendered box divided by the zoom (`none` on degenerate sizes);
otherwise derive the displayed box from the max-height policy and
aspect-ratio containment.  (The `isNaN` guards of the source are
identities on rationals; non-finite arithmetic is modelled separately by
`constrainPanNum`.) -/
def calculatePanBounds (env : BoundsEnv) (zoomScale : ℚ) : Option (ℚ × ℚ) :=
  if env.hasImageElement = false ∨ zoomScale ≤ ZOOM_MIN then none
  else if env.naturalWidth ≤ 0 ∨ env.naturalHeight ≤ 0 then
    if env.rectWidth / zoomScale ≤ 0 ∨ env.rectHeight / zoomScale ≤ 0 then none
    else some (calculateBoundsFromSize zoomScale (env.rectWidth / zoomScale)
      (env.rectHeight / zoomScale) env.viewportWidth env.viewportHeight)
  else if env.viewportWidth / maxDisplayHeight env.viewportWidth env.viewportHeight
      < env.naturalWidth / env.naturalHeight then
    some (calculateBoundsFromSize zoomScale env.viewportWidth
      (env.viewportWidth / (env.naturalWidth / env.naturalHeight))
      env.viewportWidth env.viewportHeight)
  else
    some (calculateBoundsFromSize zoomScale
      (maxDisplayHeight env.viewportWidth env.viewportHeight
        * (env.naturalWidth / env.naturalHeight))
      (maxDisplayHeight env.viewportWidth env.viewportHeight)
      env.viewportWidth env.viewportHeight)

/-- `constrainPan`: pan collapses to `(0, 0)` when the element is missing,
the view is not zoomed in, or no bounds can be computed; otherwise each
component is clamped into `[-max, max]`. -/
def constrainPan (env : BoundsEnv) (zoomScale panX panY : ℚ) : ℚ × ℚ :=
  if env.hasImageElement = false ∨ zoomScale ≤ ZOOM_MIN then (0, 0)
  else
    match calculatePanBounds env zoomScale with
    | none => (0, 0)
    | some bounds =>
      (max (-bounds.1) (min bounds.1 panX), max (-bounds.2) (min bounds.2 panY))

/-- The pan pair lies within the computed bounds (and is `(0, 0)` when no
bounds exist). -/
def panWithinBounds (env : BoundsEnv) (zoomScale : ℚ) (pan : ℚ × ℚ) : Prop :=
  match calculatePanBounds env zoomScale with
  | none => pan = (0, 0)
  | some bounds =>
    -bounds.1 ≤ pan.1 ∧ pan.1 ≤ bounds.1 ∧ -bounds.2 ≤ pan.2 ∧ pan.2 ≤ bounds.2

/-! ### The controller state machine -/

structure ModalState where
  allImages : List CarouselImage
  currentImageIndex : ℤ
  isAnimating : Bool
  zoomScale : ℚ
  panX : ℚ
  panY : ℚ
  isDragging : Bool
  hasMoved : Bool
  dragStartX : ℚ
  dragStartY : ℚ

/-- The field initialisers of `ImageModalController`. -/
def initialState : ModalState :=
  { allImages := []
    currentImageIndex := 0
    isAnimating := false
    zoomScale := ZOOM_DEFAULT
    panX := 0
    panY := 0
    isDragging := false
    hasMoved := false
    dragStartX := 0
    dragStartY := 0 }

/-- Environment of one `openModal` call: whether the required DOM anchors
exist, the constructor arguments, and the clicked image source
(`img.dataset.srcOriginal || img.src`). -/
structure OpenEnv where
  elementsReady : Bool
  baseUrl : Str
  imageData : ImageData
  clickedSrc : Str

/-- The state-mutating operations of the controller; display-only work
(style and class mutations, preloading) has no effect on this state. -/
inductive Op where
  | openModal (env : OpenEnv)
  | closeModal
  | changeImage (direction : ℤ) (hasImageElement : Bool)
  | slideOutEnd (direction : ℤ) (hasImageElement : Bool)
  | slideInEnd (hasImageElement : Bool)
  | toggleZoom (env : BoundsEnv)
  | resetZoom
  | startDrag (clientX clientY : ℚ)
  | onDrag (env : BoundsEnv) (clientX clientY : ℚ)
  | endDrag
  | handleWheel (env : BoundsEnv) (deltaX deltaY : ℚ)

def step (op : Op) (s : ModalState) : ModalState :=
  match op with
  | Op.openModal env =>
    if env.elementsReady = false then s
    else if (collectAllImages env.baseUrl env.imageData).length = 0 then s
    else
      { s with
        allImages := collectAllImages env.baseUrl env.imageData
        currentImageIndex :=
          max 0 (findImageIndex (collectAllImages env.baseUrl env.imageData) env.clickedSrc)
        zoomScale := ZOOM_DEFAULT
        panX := 0
        panY := 0 }
  | Op.closeModal => s
  | Op.changeImage _ hasImageElement =>
    if s.allImages.length ≤ 1 ∨ s.isAnimating = true ∨ hasImageElement = false then s
    else { s with isAnimating := true }
  | Op.slideOutEnd direction hasImageElement =>
    if hasImageElement = false then s
    else
      { s with currentImageIndex :=
          updateImageIndex (s.allImages.length : ℤ) s.currentImageIndex direction }
  | Op.slideInEnd hasImageElement =>
    if hasImageElement = false then s else { s with isAnimating := false }
  | Op.toggleZoom env =>
    let z := if s.zoomScale ≤ ZOOM_MIN then ZOOM_MAX else ZOOM_MIN
    let pan := if ZOOM_MIN < z then constrainPan env z 0 0 else ((0 : ℚ), (0 : ℚ))
    { s with zoomScale := z, panX := pan.1, panY := pan.2 }
  | Op.resetZoom => { s with zoomScale := ZOOM_DEFAULT, panX := 0, panY := 0 }
  | Op.startDrag clientX clientY =>
    if s.zoomScale ≤ ZOOM_MIN then s
    else
      { s with
        isDragging := true
        hasMoved := false
        dragStartX := clientX - s.panX
        dragStartY := clientY - s.panY }
  | Op.onDrag env clientX clientY =>
    if s.isDragging = false ∨ s.zoomScale ≤ ZOOM_MIN then s
    else
      let moved := if 5 < |clientX - (s.dragStartX + s.panX)| ∨
          5 < |clientY - (s.dragStartY + s.panY)| then true else s.hasMoved
      let pan := constrainPan env s.zoomScale
        (clientX - s.dragStartX) (clientY - s.dragStartY)
      { s with hasMoved := moved, panX := pan.1, panY := pan.2 }
  | Op.endDrag => { s with isDragging := false, hasMoved := false }
  | Op.handleWheel env deltaX deltaY =>
    if s.zoomScale ≤ ZOOM_MIN then s
    else
      let pan := constrainPan env s.zoomScale
        (s.panX + deltaX * SCROLL_SPEED) (s.panY + deltaY * SCROLL_SPEED)
      { s with panX := pan.1, panY := pan.2 }

/-! ### Lemmas about the pan bounds -/

lemma calculateBoundsFromSize_fst (zoomScale w h vw vh : ℚ) :
    (calculateBoundsFromSize zoomScale w h vw vh).1 = max 0 (w * zoomScale - vw) / 2 := by
  unfold calculateBoundsFromSize
  by_cases h1 : max 0 (w * zoomScale - vw) = 0 ∧ max 0 (h * zoomScale - vh) = 0
  · rw [if_pos h1]
    dsimp only
    rw [h1.1]
    norm_num
  · rw [if_neg h1]
    dsimp only
    by_cases h2 : 0 < max 0 (w * zoomScale - vw)
    · rw [if_pos h2]
    · rw [if_neg h2]
      have hmax : max 0 (w * zoomScale - vw) = 0 :=
        le_antisymm (not_lt.mp h2) (le_max_left _ _)
      rw [hmax]
      norm_num

lemma calculateBoundsFromSize_snd (zoomScale w h vw vh : ℚ) :
    (calculateBoundsFromSize zoomScale w h vw vh).2 = max 0 (h * zoomScale - vh) / 2 := by
  unfold calculateBoundsFromSize
  by_cases h1 : max 0 (w * zoomScale - vw) = 0 ∧ max 0 (h * zoomScale - vh) = 0
  · rw [if_pos h1]
    dsimp only
    rw [h1.2]
    norm_num
  · rw [if_neg h1]
    dsimp only
    by_cases h2 : 0 < max 0 (h * zoomScale - vh)
    · rw [if_pos h2]
    · rw [if_neg h2]
      have hmax : max 0 (h * zoomScale - vh) = 0 :=
        le_antisymm (not_lt.mp h2) (le_max_left _ _)
      rw [hmax]
      norm_num

lemma calculateBoundsFromSize_nonneg (zoomScale w h vw vh : ℚ) :
    0 ≤ (calculateBoundsFromSize zoomScale w h vw vh).1 ∧
    0 ≤ (calculateBoundsFromSize zoomScale w h vw vh).2 := by
  rw [calculateBoundsFromSize_fst, calculateBoundsFromSize_snd]
  exact ⟨div_nonneg (le_max_left _ _) (by norm_num),
    div_nonneg (le_max_left _ _) (by norm_num)⟩

lemma calculatePanBounds_nonneg (env : BoundsEnv) (z : ℚ) (b : ℚ × ℚ)
    (hb : calculatePanBounds env z = some b) : 0 ≤ b.1 ∧ 0 ≤ b.2 := by
  unfold calculatePanBounds at hb
  split_ifs at hb
  · obtain rfl := Option.some.inj hb
    exact calculateBoundsFromSize_nonneg _ _ _ _ _
  · obtain rfl := Option.some.inj hb
    exact calculateBoundsFromSize_nonneg _ _ _ _ _
  · obtain rfl := Option.some.inj hb
    exact calculateBoundsFromSize_nonneg _ _ _ _ _

lemma constrainPan_guard_none (env : BoundsEnv) (z : ℚ)
    (h : env.hasImageElement = false ∨ z ≤ ZOOM_MIN) :
    calculatePanBounds env z = none := by
  unfold calculatePanBounds
  rw [if_pos h]

lemma constrainPan_within (env : BoundsEnv) (z panX panY : ℚ) :
    panWithinBounds env z (constrainPan env z panX panY) := by
  cases hb : calculatePanBounds env z with
  | none =>
    unfold panWithinBounds constrainPan
    rw [hb]
    split_ifs <;> rfl
  | some b =>
    obtain ⟨hb1, hb2⟩ := calculatePanBounds_nonneg env z b hb
    unfold panWithinBounds constrainPan
    rw [hb]
    split_ifs with h1
    · exact absurd (constrainPan_guard_none env z h1) (by rw [hb]; exact fun h => Option.noConfusion h)
    · refine ⟨le_max_left _ _, ?_, le_max_left _ _, ?_⟩
      · exact max_le (by linarith) (min_le_left _ _)
      · exact max_le (by linarith) (min_le_left _ _)

lemma constrainPan_zero (env : BoundsEnv) (z : ℚ) : constrainPan env z 0 0 = (0, 0) := by
  cases hb : calculatePanBounds env z with
  | none =>
    unfold constrainPan
    rw [hb]
    split_ifs <;> rfl
  | some b =>
    obtain ⟨hb1, hb2⟩ := calculatePanBounds_nonneg env z b hb
    unfold constrainPan
    rw [hb]
    split_ifs with h1
    · rfl
    · dsimp only
      rw [min_eq_right hb1, min_eq_right hb2,
        max_eq_right (neg_nonpos.mpr hb1), max_eq_right (neg_nonpos.mpr hb2)]

/-- C2: For zoom in \x7b1.0, 2.5\x7d and any base image and viewport dimensions,
the computed pan bound on each axis equals half of
max(0, baseDimension·zoom − viewportDimension), both bounds are ≥ 0, the
bound is 0 on an axis without overflow, and after every pan-modifying
operation (drag, wheel) the applied pan lies within
[−maxX, maxX] × [−maxY, maxY]. -/
theorem pan_bounds_spec (zoomScale baseW baseH vw vh : ℚ)
    (hz : zoomScale = ZOOM_MIN ∨ zoomScale = ZOOM_MAX) :
    (calculateBoundsFromSize zoomScale baseW baseH vw vh).1
      = max 0 (baseW * zoomScale - vw) / 2 ∧
    (calculateBoundsFromSize zoomScale baseW baseH vw vh).2
      = max 0 (baseH * zoomScale - vh) / 2 ∧
    0 ≤ (calculateBoundsFromSize zoomScale baseW baseH vw vh).1 ∧
    0 ≤ (calculateBoundsFromSize zoomScale baseW baseH vw vh).2 ∧
    (baseW * zoomScale ≤ vw → (calculateBoundsFromSize zoomScale baseW baseH vw vh).1 = 0) ∧
    (baseH * zoomScale ≤ vh → (calculateBoundsFromSize zoomScale baseW baseH vw vh).2 = 0) ∧
    (∀ (env : BoundsEnv) (s : ModalState) (cx cy : ℚ),
      s.zoomScale = zoomScale → s.isDragging = true → ZOOM_MIN < zoomScale →
      panWithinBounds env zoomScale
        ((step (Op.onDrag env cx cy) s).panX, (step (Op.onDrag env cx cy) s).panY)) ∧
    (∀ (env : BoundsEnv) (s : ModalState) (dx dy : ℚ),
      s.zoomScale = zoomScale → ZOOM_MIN < zoomScale →
      panWithinBounds env zoomScale
        ((step (Op.handleWheel env dx dy) s).panX,
          (step (Op.handleWheel env dx dy) s).panY)) := by
  refine ⟨calculateBoundsFromSize_fst zoomScale baseW baseH vw vh,
    calculateBoundsFromSize_snd zoomScale baseW baseH vw vh,
    (calculateBoundsFromSize_nonneg zoomScale baseW baseH vw vh).1,
    (calculateBoundsFromSize_nonneg zoomScale baseW baseH vw vh).2,
    ?_, ?_, ?_, ?_⟩
  · intro hle
    rw [calculateBoundsFromSize_fst]
    rw [max_eq_left (by linarith)]
    norm_num
  · intro hle
    rw [calculateBoundsFromSize_snd]
    rw [max_eq_left (by linarith)]
    norm_num
  · intro env s cx cy hs hdrag hzoom
    subst hs
    have hguard : ¬(s.isDragging = false ∨ s.zoomScale ≤ ZOOM_MIN) := by
      rintro (hcase | hcase)
      · rw [hdrag] at hcase
        exact Bool.noConfusion hcase
      · exact absurd hcase (not_le.mpr hzoom)
    simp only [step]
    rw [if_neg hguard]
    exact constrainPan_within env s.zoomScale _ _
  · intro env s dx dy hs hzoom
    subst hs
    have hguard : ¬(s.zoomScale ≤ ZOOM_MIN) := not_le.mpr hzoom
    simp only [step]
    rw [if_neg hguard]
    exact constrainPan_within env s.zoomScale _ _

theorem pan_bounds_spec_witness :
    (ZOOM_MAX = ZOOM_MIN ∨ ZOOM_MAX = ZOOM_MAX) ∧
    ((calculateBoundsFromSize ZOOM_MAX 2000 1000 1000 800).1
        = max 0 (2000 * ZOOM_MAX - 1000) / 2 ∧
      (calculateBoundsFromSize ZOOM_MAX 2000 1000 1000 800).2
        = max 0 (1000 * ZOOM_MAX - 800) / 2 ∧
      0 ≤ (calculateBoundsFromSize ZOOM_MAX 2000 1000 1000 800).1 ∧
      0 ≤ (calculateBoundsFromSize ZOOM_MAX 2000 1000 1000 800).2 ∧
      ((2000 : ℚ) * ZOOM_MAX ≤ 1000 →
        (calculateBoundsFromSize ZOOM_MAX 2000 1000 1000 800).1 = 0) ∧
      ((1000 : ℚ) * ZOOM_MAX ≤ 800 →
        (calculateBoundsFromSize ZOOM_MAX 2000 1000 1000 800).2 = 0) ∧
      (∀ (env : BoundsEnv) (s : ModalState) (cx cy : ℚ),
        s.zoomScale = ZOOM_MAX → s.isDragging = true → ZOOM_MIN < ZOOM_MAX →
        panWithinBounds env ZOOM_MAX
          ((step (Op.onDrag env cx cy) s).panX, (step (Op.onDrag env cx cy) s).panY)) ∧
      (∀ (env : BoundsEnv) (s : ModalState) (dx dy : ℚ),
        s.zoomScale = ZOOM_MAX → ZOOM_MIN < ZOOM_MAX →
        panWithinBounds env ZOOM_MAX
          ((step (Op.handleWheel env dx dy) s).panX,
            (step (Op.handleWheel env dx dy) s).panY))) :=
  ⟨Or.inr rfl, pan_bounds_spec ZOOM_MAX 2000 1000 1000 800 (Or.inr rfl)⟩

/-- C3: Toggle Zoom is a binary toggle: from zoom = 1.0 it sets zoom = 2.5,
and from any zoom strictly greater than 1.0 it sets zoom = 1.0; after any
completed toggle the zoom level is exactly 1.0 or 2.5, and the pan is reset
to (0, 0) before being re-clamped against fresh bounds (so the final pan is
(0, 0) as well). -/
theorem zoom_toggle_binary (env : BoundsEnv) (s : ModalState) :
    ((step (Op.toggleZoom env) s).zoomScale = ZOOM_MIN ∨
      (step (Op.toggleZoom env) s).zoomScale = ZOOM_MAX) ∧
    (s.zoomScale = ZOOM_MIN → (step (Op.toggleZoom env) s).zoomScale = ZOOM_MAX) ∧
    (ZOOM_MIN < s.zoomScale → (step (Op.toggleZoom env) s).zoomScale = ZOOM_MIN) ∧
    (step (Op.toggleZoom env) s).panX = 0 ∧
    (step (Op.toggleZoom env) s).panY = 0 ∧
    (ZOOM_MIN < (step (Op.toggleZoom env) s).zoomScale →
      ((step (Op.toggleZoom env) s).panX, (step (Op.toggleZoom env) s).panY)
        = constrainPan env (step (Op.toggleZoom env) s).zoomScale 0 0) := by
  have hmm : ZOOM_MIN < ZOOM_MAX := by norm_num [ZOOM_MIN, ZOOM_MAX]
  by_cases hle : s.zoomScale ≤ ZOOM_MIN
  · have hz : (step (Op.toggleZoom env) s).zoomScale = ZOOM_MAX := by
      simp only [step]
      rw [if_pos hle]
    have hpan : ((step (Op.toggleZoom env) s).panX, (step (Op.toggleZoom env) s).panY)
        = constrainPan env ZOOM_MAX 0 0 := by
      simp only [step]
      rw [if_pos hle, if_pos hmm]
    have hpan0 : ((step (Op.toggleZoom env) s).panX, (step (Op.toggleZoom env) s).panY)
        = ((0 : ℚ), (0 : ℚ)) := by
      rw [hpan, constrainPan_zero]
    refine ⟨Or.inr hz, fun _ => hz, ?_, ?_, ?_, ?_⟩
    · intro hlt
      exact absurd hle (not_le.mpr hlt)
    · exact congrArg Prod.fst hpan0
    · exact congrArg Prod.snd hpan0
    · intro _
      rw [hz]
      exact hpan
  · have hz : (step (Op.toggleZoom env) s).zoomScale = ZOOM_MIN := by
      simp only [step]
      rw [if_neg hle]
    have hpan0 : ((step (Op.toggleZoom env) s).panX, (step (Op.toggleZoom env) s).panY)
        = ((0 : ℚ), (0 : ℚ)) := by
      simp only [step]
      rw [if_neg hle, if_neg (lt_irrefl ZOOM_MIN)]
    refine ⟨Or.inl hz, ?_, fun _ => hz, ?_, ?_, ?_⟩
    · intro heq
      exact absurd (le_of_eq heq) hle
    · exact congrArg Prod.fst hpan0
    · exact congrArg Prod.snd hpan0
    · intro hlt
      rw [hz] at hlt
      exact absurd hlt (lt_irrefl ZOOM_MIN)

theorem zoom_toggle_binary_witness :
    ((step (Op.toggleZoom ⟨true, 2000, 1000, 2000, 1000, 1000, 800⟩) initialState).zoomScale
        = ZOOM_MIN ∨
      (step (Op.toggleZoom ⟨true, 2000, 1000, 2000, 1000, 1000, 800⟩) initialState).zoomScale
        = ZOOM_MAX) ∧
    (initialState.zoomScale = ZOOM_MIN →
      (step (Op.toggleZoom ⟨true, 2000, 1000, 2000, 1000, 1000, 800⟩) initialState).zoomScale
        = ZOOM_MAX) ∧
    (ZOOM_MIN < initialState.zoomScale →
      (step (Op.toggleZoom ⟨true, 2000, 1000, 2000, 1000, 1000, 800⟩) initialState).zoomScale
        = ZOOM_MIN) ∧
    (step (Op.toggleZoom ⟨true, 2000, 1000, 2000, 1000, 1000, 800⟩) initialState).panX = 0 ∧
    (step (Op.toggleZoom ⟨true, 2000, 1000, 2000, 1000, 1000, 800⟩) initialState).panY = 0 ∧
    (ZOOM_MIN < (step (Op.toggleZoom ⟨true, 2000, 1000, 2000, 1000, 1000, 800⟩)
        initialState).zoomScale →
      ((step (Op.toggleZoom ⟨true, 2000, 1000, 2000, 1000, 1000, 800⟩) initialState).panX,
        (step (Op.toggleZoom ⟨true, 2000, 1000, 2000, 1000, 1000, 800⟩) initialState).panY)
        = constrainPan ⟨true, 2000, 1000, 2000, 1000, 1000, 800⟩
            (step (Op.toggleZoom ⟨true, 2000, 1000, 2000, 1000, 1000, 800⟩)
              initialState).zoomScale 0 0) :=
  zoom_toggle_binary ⟨true, 2000, 1000, 2000, 1000, 1000, 800⟩ initialState

/-- The invariant of C4: whenever the zoom level is 1.0 the pan is (0, 0). -/
def ZoomPanInv (s : ModalState) : Prop :=
  s.zoomScale = ZOOM_MIN → s.panX = 0 ∧ s.panY = 0

/-- C4: (zoom = 1.0 → pan = (0, 0)) holds in the initial state and is
preserved by every operation of the viewer (open, close, navigate and its
animation callbacks, toggle zoom, reset, drag, wheel pan). -/
theorem zoom_pan_invariant (op : Op) (s : ModalState) (h : ZoomPanInv s) :
    ZoomPanInv initialState ∧ ZoomPanInv (step op s) := by
  refine ⟨fun _ => ⟨rfl, rfl⟩, ?_⟩
  cases op with
  | openModal env =>
    simp only [ZoomPanInv, step]
    split_ifs
    · exact h
    · exact h
    · intro _
      exact ⟨rfl, rfl⟩
  | closeModal => exact h
  | changeImage d hasEl =>
    simp only [ZoomPanInv, step]
    split_ifs
    · exact h
    · exact h
  | slideOutEnd d hasEl =>
    simp only [ZoomPanInv, step]
    split_ifs
    · exact h
    · exact h
  | slideInEnd hasEl =>
    simp only [ZoomPanInv, step]
    split_ifs
    · exact h
    · exact h
  | toggleZoom env =>
    intro hz
    by_cases hle : s.zoomScale ≤ ZOOM_MIN
    · exfalso
      have hzz : (step (Op.toggleZoom env) s).zoomScale = ZOOM_MAX := by
        simp only [step]
        rw [if_pos hle]
      rw [hzz] at hz
      norm_num [ZOOM_MIN, ZOOM_MAX] at hz
    · have hpan0 : ((step (Op.toggleZoom env) s).panX, (step (Op.toggleZoom env) s).panY)
          = ((0 : ℚ), (0 : ℚ)) := by
        simp only [step]
        rw [if_neg hle, if_neg (lt_irrefl ZOOM_MIN)]
      exact ⟨congrArg Prod.fst hpan0, congrArg Prod.snd hpan0⟩
  | resetZoom =>
    intro _
    exact ⟨rfl, rfl⟩
  | startDrag cx cy =>
    simp only [ZoomPanInv, step]
    split_ifs
    · exact h
    · exact h
  | onDrag env cx cy =>
    simp only [ZoomPanInv, step]
    split_ifs with hguard
    · exact h
    all_goals
      intro hz
      exact absurd (le_of_eq hz) (not_or.mp hguard).2
  | endDrag => exact h
  | handleWheel env dx dy =>
    simp only [ZoomPanInv, step]
    split_ifs with hguard
    · exact h
    · intro hz
      exact absurd (le_of_eq hz) hguard

theorem zoom_pan_invariant_witness :
    ZoomPanInv initialState ∧
    (ZoomPanInv initialState ∧ ZoomPanInv (step Op.closeModal initialState)) :=
  ⟨fun _ => ⟨rfl, rfl⟩,
    zoom_pan_invariant Op.closeModal initialState (fun _ => ⟨rfl, rfl⟩)⟩

/-- C7: `changeImage` is a no-op whenever the carousel has at most one
image or an animation is already in flight; otherwise (with the image
element present) it sets the animating flag before the transition starts.
`changeImage` never changes the index or the images; the index changes only
at the slide-out boundary (`slideOutEnd`), and the slide-in boundary only
clears the animating flag. -/
theorem change_image_guards (s : ModalState) (d : ℤ) (hasEl : Bool) :
    (s.allImages.length ≤ 1 ∨ s.isAnimating = true →
      step (Op.changeImage d hasEl) s = s) ∧
    (step (Op.changeImage d hasEl) s).currentImageIndex = s.currentImageIndex ∧
    (step (Op.changeImage d hasEl) s).allImages = s.allImages ∧
    (1 < s.allImages.length → s.isAnimating = false → hasEl = true →
      (step (Op.changeImage d hasEl) s).isAnimating = true) ∧
    (hasEl = true →
      (step (Op.slideOutEnd d hasEl) s).currentImageIndex
        = updateImageIndex (s.allImages.length : ℤ) s.currentImageIndex d) ∧
    (step (Op.slideInEnd hasEl) s).currentImageIndex = s.currentImageIndex := by
  refine ⟨?_, ?_, ?_, ?_, ?_, ?_⟩
  · intro hguard
    simp only [step]
    rw [if_pos (hguard.imp id Or.inl)]
  · simp only [step]
    split_ifs <;> rfl
  · simp only [step]
    split_ifs <;> rfl
  · intro h1 h2 h3
    have hguard : ¬(s.allImages.length ≤ 1 ∨ s.isAnimating = true ∨ hasEl = false) := by
      rintro (hc | hc | hc)
      · omega
      · rw [h2] at hc
        exact Bool.noConfusion hc
      · rw [h3] at hc
        exact Bool.noConfusion hc
    simp only [step]
    rw [if_neg hguard]
  · intro h3
    have hne : ¬(hasEl = false) := by
      rw [h3]
      exact fun hc => Bool.noConfusion hc
    simp only [step]
    rw [if_neg hne]
  · simp only [step]
    split_ifs <;> rfl

theorem change_image_guards_witness :
    (initialState.allImages.length ≤ 1 ∨ initialState.isAnimating = true →
      step (Op.changeImage 1 true) initialState = initialState) ∧
    (step (Op.changeImage 1 true) initialState).currentImageIndex
      = initialState.currentImageIndex ∧
    (step (Op.changeImage 1 true) initialState).allImages = initialState.allImages ∧
    (1 < initialState.allImages.length → initialState.isAnimating = false → true = true →
      (step (Op.changeImage 1 true) initialState).isAnimating = true) ∧
    (true = true →
      (step (Op.slideOutEnd 1 true) initialState).currentImageIndex
        = updateImageIndex (initialState.allImages.length : ℤ)
            initialState.currentImageIndex 1) ∧
    (step (Op.slideInEnd true) initialState).currentImageIndex
      = initialState.currentImageIndex :=
  change_image_guards initialState 1 true

/-- C8: `openModal` is a no-op when the required DOM anchors are missing
(and guards against an empty sequence, though the built sequence is never
empty); on success it installs the freshly built carousel, sets the current
index to the first entry matching the clicked source by display or
full-resolution URL — falling back to 0 when none matches — and resets zoom
to 1.0 and pan to (0, 0). -/
theorem open_modal_spec (env : OpenEnv) (s : ModalState) :
    (env.elementsReady = false → step (Op.openModal env) s = s) ∧
    (env.elementsReady = true →
      collectAllImages env.baseUrl env.imageData ≠ [] ∧
      (step (Op.openModal env) s).allImages = collectAllImages env.baseUrl env.imageData ∧
      (∀ i : ℕ,
        List.findIdx? (imageMatches env.clickedSrc)
            (collectAllImages env.baseUrl env.imageData) = some i →
        (step (Op.openModal env) s).currentImageIndex = (i : ℤ)) ∧
      (List.findIdx? (imageMatches env.clickedSrc)
            (collectAllImages env.baseUrl env.imageData) = none →
        (step (Op.openModal env) s).currentImageIndex = 0) ∧
      (step (Op.openModal env) s).zoomScale = ZOOM_DEFAULT ∧
      (step (Op.openModal env) s).panX = 0 ∧
      (step (Op.openModal env) s).panY = 0) := by
  constructor
  · intro hnr
    simp only [step]
    rw [if_pos hnr]
  · intro hr
    have hready : ¬(env.elementsReady = false) := by
      rw [hr]
      exact fun hc => Bool.noConfusion hc
    have hlen : ¬((collectAllImages env.baseUrl env.imageData).length = 0) := by
      simp [collectAllImages]
    refine ⟨by simp [collectAllImages], ?_, ?_, ?_, ?_, ?_, ?_⟩
    · simp only [step]
      rw [if_neg hready, if_neg hlen]
    · intro i hi
      simp only [step]
      rw [if_neg hready, if_neg hlen]
      show max 0 (findImageIndex (collectAllImages env.baseUrl env.imageData)
        env.clickedSrc) = (i : ℤ)
      unfold findImageIndex
      rw [hi]
      exact max_eq_right (Int.natCast_nonneg i)
    · intro hnone
      simp only [step]
      rw [if_neg hready, if_neg hlen]
      show max 0 (findImageIndex (collectAllImages env.baseUrl env.imageData)
        env.clickedSrc) = 0
      unfold findImageIndex
      rw [hnone]
      decide
    · simp only [step]
      rw [if_neg hready, if_neg hlen]
    · simp only [step]
      rw [if_neg hready, if_neg hlen]
    · simp only [step]
      rw [if_neg hready, if_neg hlen]

theorem open_modal_spec_witness :
    ((⟨true, [], ⟨[], none, [], []⟩, []⟩ : OpenEnv).elementsReady = false →
      step (Op.openModal ⟨true, [], ⟨[], none, [], []⟩, []⟩) initialState = initialState) ∧
    ((⟨true, [], ⟨[], none, [], []⟩, []⟩ : OpenEnv).elementsReady = true →
      collectAllImages [] ⟨[], none, [], []⟩ ≠ [] ∧
      (step (Op.openModal ⟨true, [], ⟨[], none, [], []⟩, []⟩) initialState).allImages
        = collectAllImages [] ⟨[], none, [], []⟩ ∧
      (∀ i : ℕ,
        List.findIdx? (imageMatches []) (collectAllImages [] ⟨[], none, [], []⟩) = some i →
        (step (Op.openModal ⟨true, [], ⟨[], none, [], []⟩, []⟩)
            initialState).currentImageIndex = (i : ℤ)) ∧
      (List.findIdx? (imageMatches []) (collectAllImages [] ⟨[], none, [], []⟩) = none →
        (step (Op.openModal ⟨true, [], ⟨[], none, [], []⟩, []⟩)
            initialState).currentImageIndex = 0) ∧
      (step (Op.openModal ⟨true, [], ⟨[], none, [], []⟩, []⟩)
          initialState).zoomScale = ZOOM_DEFAULT ∧
      (step (Op.openModal ⟨true, [], ⟨[], none, [], []⟩, []⟩) initialState).panX = 0 ∧
      (step (Op.openModal ⟨true, [], ⟨[], none, [], []⟩, []⟩) initialState).panY = 0) :=
  open_modal_spec ⟨true, [], ⟨[], none, [], []⟩, []⟩ initialState

/-! ### Swipe classification -/

/-- `handleSwipeGesture` on touch end (when no drag was in progress):
returns the navigation direction passed to the single `changeImage` call
when the gesture is classified as a swipe, and `none` otherwise.  The
gesture is rejected while zoomed in, when its horizontal displacement
magnitude is below the minimum distance, does not strictly exceed the
vertical magnitude, or when the duration exceeds the maximum. -/
def handleSwipeGesture (zoomScale touchStartX touchStartY endX endY duration : ℚ) :
    Option ℤ :=
  if ZOOM_MIN < zoomScale then none
  else if |endX - touchStartX| < SWIPE_MIN_DISTANCE ∨
      |endX - touchStartX| ≤ |endY - touchStartY| ∨
      SWIPE_MAX_DURATION < duration then none
  else some (if endX - touchStartX < 0 then 1 else -1)

/-- C5 counterexample: a not-zoomed gesture with horizontal displacement of
exactly 50 px, vertical displacement 10 px and duration 200 ms is
classified as a swipe by the code, although 50 px does not strictly exceed
the 50 px minimum distance, so the claimed "exceeds the minimum distance"
condition is false for it. -/
theorem swipe_boundary_counterexample :
    handleSwipeGesture 1 0 0 50 10 200 = some (-1) ∧
    ¬(SWIPE_MIN_DISTANCE < |(50 : ℚ) - 0|) := by
  constructor
  · have h1 : ¬(ZOOM_MIN < (1 : ℚ)) := by norm_num [ZOOM_MIN]
    have h2 : ¬(|(50 : ℚ) - 0| < SWIPE_MIN_DISTANCE ∨
        |(50 : ℚ) - 0| ≤ |(10 : ℚ) - 0| ∨ SWIPE_MAX_DURATION < 200) := by
      norm_num [SWIPE_MIN_DISTANCE, SWIPE_MAX_DURATION, abs_of_nonneg]
    unfold handleSwipeGesture
    rw [if_neg h1, if_neg h2, if_neg (by norm_num : ¬((50 : ℚ) - 0 < 0))]
  · norm_num [SWIPE_MIN_DISTANCE, abs_of_nonneg]

/-- C5 (amended): a touch gesture ending while not zoomed in is classified
as a swipe — triggering exactly one navigation — if and only if its
horizontal displacement magnitude is at least the minimum distance (50 px),
strictly exceeds its vertical displacement magnitude, and its duration does
not exceed the maximum (500 ms); negative horizontal displacement navigates
forward (+1) and positive navigates backward (−1).  An 80 px / 10 px /
200 ms gesture swipes, and a 40 px one under the same conditions does
not. -/
theorem swipe_classification (zoomScale sx sy ex ey dur : ℚ)
    (hz : zoomScale ≤ ZOOM_MIN) :
    (handleSwipeGesture zoomScale sx sy ex ey dur ≠ none ↔
      SWIPE_MIN_DISTANCE ≤ |ex - sx| ∧ |ey - sy| < |ex - sx| ∧
        dur ≤ SWIPE_MAX_DURATION) ∧
    (ex - sx < 0 → handleSwipeGesture zoomScale sx sy ex ey dur ≠ none →
      handleSwipeGesture zoomScale sx sy ex ey dur = some 1) ∧
    (0 < ex - sx → handleSwipeGesture zoomScale sx sy ex ey dur ≠ none →
      handleSwipeGesture zoomScale sx sy ex ey dur = some (-1)) ∧
    handleSwipeGesture zoomScale 0 0 80 10 200 = some (-1) ∧
    handleSwipeGesture zoomScale 0 0 (-80) 10 200 = some 1 ∧
    handleSwipeGesture zoomScale 0 0 40 10 200 = none := by
  have hnz : ¬(ZOOM_MIN < zoomScale) := not_lt.mpr hz
  refine ⟨?_, ?_, ?_, ?_, ?_, ?_⟩
  · unfold handleSwipeGesture
    rw [if_neg hnz]
    by_cases hrej : |ex - sx| < SWIPE_MIN_DISTANCE ∨ |ex - sx| ≤ |ey - sy| ∨
        SWIPE_MAX_DURATION < dur
    · rw [if_pos hrej]
      simp only [ne_eq, not_true_eq_false, false_iff]
      rintro ⟨ha, hb, hc⟩
      rcases hrej with hd | hd | hd
      · exact absurd ha (not_le.mpr hd)
      · exact absurd hb (not_lt.mpr hd)
      · exact absurd hc (not_le.mpr hd)
    · rw [if_neg hrej]
      push_neg at hrej
      simp only [ne_eq, Option.some_ne_none, not_false_eq_true, true_iff]
      exact ⟨hrej.1, hrej.2.1, hrej.2.2⟩
  · intro hneg hsome
    unfold handleSwipeGesture at hsome ⊢
    rw [if_neg hnz] at hsome ⊢
    by_cases hrej : |ex - sx| < SWIPE_MIN_DISTANCE ∨ |ex - sx| ≤ |ey - sy| ∨
        SWIPE_MAX_DURATION < dur
    · rw [if_pos hrej] at hsome
      exact absurd rfl hsome
    · rw [if_neg hrej, if_pos hneg]
  · intro hpos hsome
    unfold handleSwipeGesture at hsome ⊢
    rw [if_neg hnz] at hsome ⊢
    by_cases hrej : |ex - sx| < SWIPE_MIN_DISTANCE ∨ |ex - sx| ≤ |ey - sy| ∨
        SWIPE_MAX_DURATION < dur
    · rw [if_pos hrej] at hsome
      exact absurd rfl hsome
    · rw [if_neg hrej, if_neg (by linarith : ¬(ex - sx < 0))]
  · unfold handleSwipeGesture
    rw [if_neg hnz]
    rw [if_neg (by norm_num [SWIPE_MIN_DISTANCE, SWIPE_MAX_DURATION, abs_of_nonneg] :
      ¬(|(80 : ℚ) - 0| < SWIPE_MIN_DISTANCE ∨ |(80 : ℚ) - 0| ≤ |(10 : ℚ) - 0| ∨
        SWIPE_MAX_DURATION < 200))]
    rw [if_neg (by norm_num : ¬((80 : ℚ) - 0 < 0))]
  · unfold handleSwipeGesture
    rw [if_neg hnz]
    have habs : ¬(|(-80 : ℚ) - 0| < SWIPE_MIN_DISTANCE ∨
        |(-80 : ℚ) - 0| ≤ |(10 : ℚ) - 0| ∨ SWIPE_MAX_DURATION < 200) := by
      have h1 : |(-80 : ℚ) - 0| = 80 := by norm_num
      have h2 : |(10 : ℚ) - 0| = 10 := by norm_num
      rw [h1, h2]
      norm_num [SWIPE_MIN_DISTANCE, SWIPE_MAX_DURATION]
    rw [if_neg habs, if_pos (by norm_num : (-80 : ℚ) - 0 < 0)]
  · unfold handleSwipeGesture
    rw [if_neg hnz]
    rw [if_pos (Or.inl (by norm_num [SWIPE_MIN_DISTANCE, abs_of_nonneg] :
      |(40 : ℚ) - 0| < SWIPE_MIN_DISTANCE))]

theorem swipe_classification_witness :
    (1 : ℚ) ≤ ZOOM_MIN ∧
    ((handleSwipeGesture 1 0 0 120 30 100 ≠ none ↔
        SWIPE_MIN_DISTANCE ≤ |(120 : ℚ) - 0| ∧ |(30 : ℚ) - 0| < |(120 : ℚ) - 0| ∧
          (100 : ℚ) ≤ SWIPE_MAX_DURATION) ∧
      ((120 : ℚ) - 0 < 0 → handleSwipeGesture 1 0 0 120 30 100 ≠ none →
        handleSwipeGesture 1 0 0 120 30 100 = some 1) ∧
      ((0 : ℚ) < 120 - 0 → handleSwipeGesture 1 0 0 120 30 100 ≠ none →
        handleSwipeGesture 1 0 0 120 30 100 = some (-1)) ∧
      handleSwipeGesture 1 0 0 80 10 200 = some (-1) ∧
      handleSwipeGesture 1 0 0 (-80) 10 200 = some 1 ∧
      handleSwipeGesture 1 0 0 40 10 200 = none) :=
  ⟨by norm_num [ZOOM_MIN], swipe_classification 1 0 0 120 30 100 (by norm_num [ZOOM_MIN])⟩

/-! ### Language switcher path conversion

Both implementations of `convertPath` read the current language from the
URL via `detectLanguage()`; here it is passed explicitly as `currentLang`,
matching the claim's proviso that the current language correctly reflects
the path being converted. -/

inductive Lang where
  | en
  | es
deriving DecidableEq

/-- JavaScript `String.prototype.startsWith`. -/
def strStartsWith (s pat : Str) : Bool := pat.isPrefixOf s

/-- JavaScript `String.prototype.endsWith`. -/
def strEndsWith (s pat : Str) : Bool := pat.isSuffixOf s

/-- JavaScript `String.prototype.replace` with a string pattern: replaces
the first occurrence only. -/
def replaceFirst (s pat rep : Str) : Str :=
  match s with
  | [] => if pat = [] then rep else []
  | c :: rest =>
    if pat.isPrefixOf (c :: rest) then rep ++ (c :: rest).drop pat.length
    else c :: replaceFirst rest pat rep

/-- `normalizePath`: strip the base URL when present, and normalise empty
or base-equal paths to the root. -/
def normalizePath (path baseUrl : Str) : Str :=
  let relativePath :=
    if baseUrl ≠ str "/" ∧ strStartsWith path baseUrl then
      replaceFirst path baseUrl (str "/")
    else path
  if relativePath = [] ∨ relativePath = baseUrl ∨ relativePath = str "/" then str "/"
  else relativePath

/-- `constructFullPath`: re-attach the base URL. -/
def constructFullPath (relativePath baseUrl : Str) : Str :=
  if baseUrl = str "/" then relativePath
  else
    (if strEndsWith baseUrl (str "/") then baseUrl else baseUrl ++ str "/") ++
    (if strStartsWith relativePath (str "/") then relativePath.drop 1 else relativePath)

/-- The first implementation of `convertPath` (LanguageSwitcher, first
document): explicit English/Spanish cases with an "/artwork/<id>" special
case. -/
def convertPath1 (currentPath : Str) (targetLang : Lang) (baseUrl : Str)
    (currentLang : Lang) : Str :=
  let relativePath := normalizePath currentPath baseUrl
  if currentLang = targetLang then currentPath
  else
    let newRelativePath :=
      match targetLang with
      | Lang.es =>
        if strStartsWith relativePath (str "/artwork/") then
          str "/es/artwork/" ++ replaceFirst relativePath (str "/artwork/") []
        else if relativePath = str "/" then str "/es/"
        else str "/es" ++ relativePath
      | Lang.en =>
        if strStartsWith relativePath (str "/es/artwork/") then
          str "/artwork/" ++ replaceFirst relativePath (str "/es/artwork/") []
        else if strStartsWith relativePath (str "/es/") then
          replaceFirst relativePath (str "/es/") (str "/")
        else if relativePath = str "/es/" ∨ relativePath = str "/es" then str "/"
        else relativePath
    constructFullPath newRelativePath baseUrl

/-- The per-language URL path marker (`pathPrefix` field of the language
configuration): empty for English, "/es" for Spanish. -/
def getLanguagePathPart (lang : Lang) : Str :=
  match lang with
  | Lang.en => []
  | Lang.es => str "/es"

/-- The second implementation of `convertPath` (LanguageSwitcher, third
document): strip the current language's path marker, then attach the
target's, special-casing "/artwork/<id>" and the root. -/
def convertPath2 (currentPath : Str) (targetLang : Lang) (baseUrl : Str)
    (currentLang : Lang) : Str :=
  let relativePath := normalizePath currentPath baseUrl
  if currentLang = targetLang then currentPath
  else
    let targetPart := getLanguagePathPart targetLang
    let currentPart := getLanguagePathPart currentLang
    let stripped :=
      if currentPart ≠ [] ∧ strStartsWith relativePath currentPart then
        replaceFirst relativePath currentPart []
      else relativePath
    let newRelativePath :=
      if targetPart ≠ [] then
        if strStartsWith stripped (str "/artwork/") then
          targetPart ++ str "/artwork/" ++ replaceFirst stripped (str "/artwork/") []
        else if stripped = str "/" then targetPart ++ str "/"
        else targetPart ++ stripped
      else stripped
    constructFullPath newRelativePath baseUrl

/-- C6: converting the relative path /artwork/42 to Spanish yields
/es/artwork/42, and converting /es/artwork/42 back to English yields
/artwork/42 (with the current language reflecting the path being
converted), for both implementations of `convertPath`. -/
theorem convert_path_round_trip :
    convertPath1 (str "/artwork/42") Lang.es (str "/") Lang.en = str "/es/artwork/42" ∧
    convertPath1 (str "/es/artwork/42") Lang.en (str "/") Lang.es = str "/artwork/42" ∧
    convertPath2 (str "/artwork/42") Lang.es (str "/") Lang.en = str "/es/artwork/42" ∧
    convertPath2 (str "/es/artwork/42") Lang.en (str "/") Lang.es = str "/artwork/42" := by
  refine ⟨?_, ?_, ?_, ?_⟩ <;> decide

/-! ### Non-finite-aware pan constraining

`JNum` models the relevant IEEE-754 behaviour of JavaScript numbers in
`constrainPan`: a finite value, NaN, or an infinity.  `Math.min` and
`Math.max` return NaN as soon as one argument is NaN; no rounding is
involved because `constrainPan` itself only negates and compares. -/

inductive JNum where
  | fin (q : ℚ)
  | nan
  | inf
  | negInf
deriving DecidableEq

/-- JavaScript `isNaN`. -/
def JNum.isNaN : JNum → Bool
  | JNum.nan => true
  | _ => false

/-- JavaScript `isFinite`: false on NaN and on both infinities. -/
def JNum.isFinite : JNum → Bool
  | JNum.fin _ => true
  | _ => false

/-- Unary negation. -/
def JNum.neg : JNum → JNum
  | JNum.fin q => JNum.fin (-q)
  | JNum.nan => JNum.nan
  | JNum.inf => JNum.negInf
  | JNum.negInf => JNum.inf

/-- JavaScript `Math.min`. -/
def JNum.jmin : JNum → JNum → JNum
  | JNum.nan, _ => JNum.nan
  | _, JNum.nan => JNum.nan
  | JNum.negInf, _ => JNum.negInf
  | _, JNum.negInf => JNum.negInf
  | JNum.inf, y => y
  | x, JNum.inf => x
  | JNum.fin a, JNum.fin b => JNum.fin (min a b)

/-- JavaScript `Math.max`. -/
def JNum.jmax : JNum → JNum → JNum
  | JNum.nan, _ => JNum.nan
  | _, JNum.nan => JNum.nan
  | JNum.inf, _ => JNum.inf
  | _, JNum.inf => JNum.inf
  | JNum.negInf, y => y
  | x, JNum.negInf => x
  | JNum.fin a, JNum.fin b => JNum.fin (max a b)

/-- The per-component fix-up of `constrainPan`: an NaN or non-finite
clamped value is collapsed to 0. -/
def collapseNonFinite (v : JNum) : JNum :=
  if v.isNaN || !v.isFinite then JNum.fin 0 else v

/-- `constrainPan` over JavaScript numbers, with the result of
`calculatePanBounds` supplied as an optional pair of bounds: pan collapses
to (0, 0) when the element is missing, the view is not zoomed, or no
bounds could be computed (degenerate base dimensions); otherwise each
component is clamped and then collapsed to 0 if NaN or non-finite. -/
def constrainPanNum (hasImageElement zoomedIn : Bool)
    (bounds : Option (JNum × JNum)) (panX panY : JNum) : JNum × JNum :=
  if !hasImageElement || !zoomedIn then (JNum.fin 0, JNum.fin 0)
  else
    match bounds with
    | none => (JNum.fin 0, JNum.fin 0)
    | some b =>
      (collapseNonFinite (JNum.jmax (JNum.neg b.1) (JNum.jmin b.1 panX)),
       collapseNonFinite (JNum.jmax (JNum.neg b.2) (JNum.jmin b.2 panY)))

lemma collapseNonFinite_finite (v : JNum) :
    (collapseNonFinite v).isFinite = true ∧ (collapseNonFinite v).isNaN = false := by
  cases v <;> simp [collapseNonFinite, JNum.isNaN, JNum.isFinite]

/-- C9: after pan constraining each pan component is a finite, non-NaN
number: a clamped component that is NaN or non-finite is collapsed to 0,
and when pan bounds cannot be computed (missing element, not zoomed, or
degenerate base dimensions yielding no bounds) both components are set
to 0. -/
theorem constrain_pan_finite (hasImageElement zoomedIn : Bool)
    (bounds : Option (JNum × JNum)) (panX panY : JNum) :
    (constrainPanNum hasImageElement zoomedIn bounds panX panY).1.isFinite = true ∧
    (constrainPanNum hasImageElement zoomedIn bounds panX panY).2.isFinite = true ∧
    (constrainPanNum hasImageElement zoomedIn bounds panX panY).1.isNaN = false ∧
    (constrainPanNum hasImageElement zoomedIn bounds panX panY).2.isNaN = false ∧
    (bounds = none →
      constrainPanNum hasImageElement zoomedIn bounds panX panY
        = (JNum.fin 0, JNum.fin 0)) ∧
    (hasImageElement = false ∨ zoomedIn = false →
      constrainPanNum hasImageElement zoomedIn bounds panX panY
        = (JNum.fin 0, JNum.fin 0)) ∧
    (∀ b : JNum × JNum, bounds = some b → hasImageElement = true → zoomedIn = true →
      (JNum.jmax (JNum.neg b.1) (JNum.jmin b.1 panX)).isNaN = true ∨
        (JNum.jmax (JNum.neg b.1) (JNum.jmin b.1 panX)).isFinite = false →
      (constrainPanNum hasImageElement zoomedIn bounds panX panY).1 = JNum.fin 0) := by
  by_cases hguard : (!hasImageElement || !zoomedIn) = true
  · have hval : constrainPanNum hasImageElement zoomedIn bounds panX panY
        = (JNum.fin 0, JNum.fin 0) := by
      unfold constrainPanNum
      rw [if_pos hguard]
    rw [hval]
    refine ⟨rfl, rfl, rfl, rfl, fun _ => rfl, fun _ => rfl, ?_⟩
    intro b _ hel hzi _
    rfl
  · cases bounds with
    | none =>
      have hval : constrainPanNum hasImageElement zoomedIn none panX panY
          = (JNum.fin 0, JNum.fin 0) := by
        unfold constrainPanNum
        rw [if_neg hguard]
      rw [hval]
      exact ⟨rfl, rfl, rfl, rfl, fun _ => rfl, fun _ => rfl,
        fun b hb => absurd hb (by simp)⟩
    | some b =>
      have hval : constrainPanNum hasImageElement zoomedIn (some b) panX panY
          = (collapseNonFinite (JNum.jmax (JNum.neg b.1) (JNum.jmin b.1 panX)),
             collapseNonFinite (JNum.jmax (JNum.neg b.2) (JNum.jmin b.2 panY))) := by
        unfold constrainPanNum
        rw [if_neg hguard]
      rw [hval]
      refine ⟨(collapseNonFinite_finite _).1, (collapseNonFinite_finite _).1,
        (collapseNonFinite_finite _).2, (collapseNonFinite_finite _).2,
        fun hc => Option.noConfusion hc, ?_, ?_⟩
      · intro hc
        exfalso
        rcases hc with hc | hc <;> rw [hc] at hguard <;> simp at hguard
      · intro c hc _ _ hnotfin
        obtain rfl := Option.some.inj hc
        unfold collapseNonFinite
        rcases hnotfin with hn | hn
        · rw [if_pos (by rw [hn]; rfl)]
        · rw [if_pos (by rw [hn]; simp)]

theorem constrain_pan_finite_witness :
    ((constrainPanNum true true (some (JNum.inf, JNum.fin 3)) JNum.nan
        (JNum.fin 7)).1.isFinite = true ∧
      (constrainPanNum true true (some (JNum.inf, JNum.fin 3)) JNum.nan
        (JNum.fin 7)).2.isFinite = true ∧
      (constrainPanNum true true (some (JNum.inf, JNum.fin 3)) JNum.nan
        (JNum.fin 7)).1.isNaN = false ∧
      (constrainPanNum true true (some (JNum.inf, JNum.fin 3)) JNum.nan
        (JNum.fin 7)).2.isNaN = false ∧
      ((some (JNum.inf, JNum.fin 3) : Option (JNum × JNum)) = none →
        constrainPanNum true true (some (JNum.inf, JNum.fin 3)) JNum.nan (JNum.fin 7)
          = (JNum.fin 0, JNum.fin 0)) ∧
      (true = false ∨ true = false →
        constrainPanNum true true (some (JNum.inf, JNum.fin 3)) JNum.nan (JNum.fin 7)
          = (JNum.fin 0, JNum.fin 0)) ∧
      (∀ b : JNum × JNum,
        (some (JNum.inf, JNum.fin 3) : Option (JNum × JNum)) = some b →
        true = true → true = true →
        (JNum.jmax (JNum.neg b.1) (JNum.jmin b.1 JNum.nan)).isNaN = true ∨
          (JNum.jmax (JNum.neg b.1) (JNum.jmin b.1 JNum.nan)).isFinite = false →
        (constrainPanNum true true (some (JNum.inf, JNum.fin 3)) JNum.nan
          (JNum.fin 7)).1 = JNum.fin 0)) :=
  constrain_pan_finite true true (some (JNum.inf, JNum.fin 3)) JNum.nan (JNum.fin 7)

end Gallery
